import Mathlib

/-!
Verification development for `extract_timeseries.py`: extraction of
per-region time series from a gridded (GRIB/ERA5-land style) dataset.

The embedding below follows the single source function
`extract_time_series(inputfile, outputfile, varname, adm_level, country)`
line by line.  Library calls (xarray, pandas, rioxarray, pycountry,
requests, geopandas) are modelled by their documented semantics on the
data actually used by the script:

  * an xarray dataset is a `Grid`: longitude / latitude / time / step
    coordinate axes plus a mapping from variable names to cell values;
  * `dataset.sel(longitude = slice(a, b), latitude = slice(c, d))` is
    label slicing on a monotonic index (pandas `slice_locs` semantics):
    on a monotonically increasing axis `slice(a, b)` keeps labels
    `a ≤ x ≤ b`, on a monotonically decreasing axis it keeps
    `b ≤ x ≤ a`;
  * `rio.clip(..., drop=False)` masks cells outside the polygon to NaN;
    the polygon membership test is carried by the `Region` as an opaque
    boolean function (geometry is an external collaborator);
  * `.mean(dim=['longitude','latitude'])` is the NaN-skipping mean:
    the mean of the unmasked cells, NaN when every cell is masked;
  * `.stack(dimension=['time','step'])` enumerates (time, step) pairs
    with `step` varying fastest, i.e. `List.product time step`;
  * a pandas DataFrame column assignment `df[name] = values` requires,
    once the frame has rows, `len(values)` to equal the row count and
    otherwise raises.

Numeric cell values, coordinates and times are rationals (the script
does no float-specific reasoning).  Exceptions are `Except String`.
-/

/-- Uppercase an ASCII character; models Python `str.upper` on the
ASCII alphabet (country codes are ASCII). -/
def asciiUpper (c : Char) : Char :=
  if 97 ≤ c.toNat ∧ c.toNat ≤ 122 then Char.ofNat (c.toNat - 32) else c

/-- `country.upper()` (source line 67). -/
def strUpper (s : String) : String :=
  ⟨s.data.map asciiUpper⟩

/-- Is the list monotonically non-decreasing?  (pandas
`Index.is_monotonic_increasing`). -/
def monoIncr : List ℚ → Bool
  | [] => true
  | [_] => true
  | a :: b :: t => decide (a ≤ b) && monoIncr (b :: t)

/-- Is the list monotonically non-increasing?  (pandas
`Index.is_monotonic_decreasing`). -/
def monoDecr : List ℚ → Bool
  | [] => true
  | [_] => true
  | a :: b :: t => decide (b ≤ a) && monoDecr (b :: t)

/-- Label-based slice selection on one coordinate axis:
`axis.sel(slice(start, stop))` in xarray, which delegates to pandas
`slice_locs`.  On a monotonically increasing index `slice(start, stop)`
keeps the labels `start ≤ x ≤ stop`; on a monotonically decreasing
index it keeps `stop ≤ x ≤ start` (increasing semantics win when both
hold, e.g. on a singleton axis). -/
def sliceSel (axis : List ℚ) (start stop : ℚ) : List ℚ :=
  if monoIncr axis then
    axis.filter (fun x => decide (start ≤ x) && decide (x ≤ stop))
  else if monoDecr axis then
    axis.filter (fun x => decide (stop ≤ x) && decide (x ≤ start))
  else
    axis.filter (fun x => decide (start ≤ x) && decide (x ≤ stop))

/-- The xarray dataset opened from the GRIB file: coordinate axes,
data-variable names, and the cell values of each variable as a function
of (variable, time, step, latitude, longitude). -/
structure Grid where
  longitude : List ℚ
  latitude : List ℚ
  time : List ℚ
  step : List ℚ
  dataVars : List String
  value : String → ℚ → ℚ → ℚ → ℚ → ℚ

/-- One administrative polygon (a row of the geoBoundary GeoDataFrame):
display name (`shapeName`), ISO code (`shapeISO`), the total bounds of
its geometry, its equal-area size in km² as computed by
`polygon_gdf.to_crs(cea).area / 1e6` (geometry reprojection is an
external collaborator, so the result is carried as data), and the clip
membership test of its geometry on a (longitude, latitude) cell. -/
structure Region where
  name : String
  iso : String
  xmin : ℚ
  ymin : ℚ
  xmax : ℚ
  ymax : ℚ
  area_km2 : ℚ
  inside : ℚ → ℚ → Bool

/-- Source lines 111-113:
`dataset.sel(longitude = slice(xmin, xmax), latitude = slice(ymax, ymin))`.
Note the latitude slice runs from `ymax` down to `ymin`. -/
def selectBBox (g : Grid) (xmin ymin xmax ymax : ℚ) : Grid :=
  { g with
    longitude := sliceSel g.longitude xmin xmax
    latitude := sliceSel g.latitude ymax ymin }

/-- `this_dataset[varname].size`: total number of elements of the
variable's array, the product of all dimension lengths. -/
def varSize (g : Grid) : ℕ :=
  g.time.length * g.step.length * g.latitude.length * g.longitude.length

/-- Source lines 130-139 at one (time, step) pair: clip the window to
the polygon with `drop=False` (cells outside become NaN) and take the
NaN-skipping mean over longitude and latitude.  `none` is NaN (every
cell masked). -/
def spatialMean (g : Grid) (var : String) (inside : ℚ → ℚ → Bool)
    (t s : ℚ) : Option ℚ :=
  let cells := (g.latitude.product g.longitude).filter
    (fun p => inside p.2 p.1)
  if cells.length = 0 then none
  else some ((cells.map (fun p => g.value var t s p.1 p.2)).sum / cells.length)

/-- Source lines 130-143: clip, mean over longitude/latitude, stack
over (time, step) with step fastest, and set
`timestep = time + step`.  One (timestep, value) pair per stacked
element, in the stacking order. -/
def aggSeries (g : Grid) (var : String) (inside : ℚ → ℚ → Bool) :
    List (ℚ × Option ℚ) :=
  (g.time.product g.step).map
    (fun p => (p.1 + p.2, spatialMean g var inside p.1 p.2))

/-- One row of the statistics DataFrame (source lines 115-124). -/
structure RegionStats where
  name : String
  iso : String
  area_km2 : ℚ
  n : ℕ
deriving DecidableEq, Repr

/-- Source lines 115-124: the statistics row of a region, where `n` is
`len(this_dataset['latitude']) * len(this_dataset['longitude'])` of the
bounding-box window. -/
def mkStats (reg : Region) (window : Grid) : RegionStats :=
  { name := reg.name
    iso := reg.iso
    area_km2 := reg.area_km2
    n := window.latitude.length * window.longitude.length }

/-- The per-region aggregation (loop body, source lines 108-143,
without the table assembly): bounding-box window, then either the
clipped/averaged/stacked series (when `this_dataset[varname].size > 0`)
or the empty series, together with the statistics row. -/
def aggregate (g : Grid) (var : String) (reg : Region) :
    List (ℚ × Option ℚ) × RegionStats :=
  let window := selectBBox g reg.xmin reg.ymin reg.xmax reg.ymax
  (if 0 < varSize window then aggSeries window var reg.inside else [],
   mkStats reg window)

/-- The unweighted spatial mean of all the grid's cells at one
(time, step) pair — the quantity the spec compares aggregated values
against under full polygon coverage. -/
def gridMean (g : Grid) (var : String) (t s : ℚ) : ℚ :=
  ((g.latitude.product g.longitude).map
      (fun p => g.value var t s p.1 p.2)).sum /
    ((g.latitude.product g.longitude).length : ℚ)

/-- The `out_ts` DataFrame: ordered named columns.  Timestep entries
are stored as `some`; region columns may hold NaN (`none`). -/
abbrev DF : Type := List (String × List (Option ℚ))

/-- `len(out_ts)`: the number of rows, i.e. the length of the index,
which is set by the first column assigned to the empty frame. -/
def dfLen (df : DF) : ℕ :=
  match df with
  | [] => 0
  | c :: _ => c.2.length

/-- Pandas column assignment `df[name] = values`: on a frame with no
columns it installs the column (and its index); otherwise the value
list must match the row count (else pandas raises a length-mismatch
`ValueError`); an existing column of that name is overwritten, a new
name is appended on the right. -/
def dfSetCol (df : DF) (name : String) (vals : List (Option ℚ)) :
    Except String DF :=
  match df with
  | [] => .ok [(name, vals)]
  | c :: cs =>
    if vals.length = dfLen (c :: cs) then
      .ok (if ((c :: cs).map Prod.fst).contains name then
            (c :: cs).map (fun d => if d.1 = name then (d.1, vals) else d)
          else (c :: cs) ++ [(name, vals)])
    else .error "ValueError: Length of values does not match length of index"

/-- Observable actions of one run, used to state in which order the
script touches the outside world (dataset opening, the boundary-service
request, geometry download, per-region grid computation, axis
establishment, output writes) and which warnings it logs. -/
inductive Ev where
  | openDataset
  | request (country : String)
  | logRequestError
  | warnAdmFallback
  | readGeometry
  | computeRegion (name : String)
  | establishAxis (name : String) (len : ℕ)
  | writeTimeSeries
  | writeStats
deriving DecidableEq, Repr

/-- Decidable equality of run results, so that concrete runs can be
checked by evaluation. -/
instance {e a : Type} [DecidableEq e] [DecidableEq a] :
    DecidableEq (Except e a) := fun x y =>
  match x, y with
  | .error e1, .error e2 => decidable_of_iff (e1 = e2) (by simp)
  | .error _, .ok _ => isFalse (by simp)
  | .ok _, .error _ => isFalse (by simp)
  | .ok a1, .ok a2 => decidable_of_iff (a1 = a2) (by simp)

/-- Recognise the axis-establishment event (the assignment
`out_ts['timestep'] = ...` at source line 146). -/
def isEstablishEv : Ev → Bool
  | Ev.establishAxis _ _ => true
  | _ => false

/-- Loop body, source lines 104-148, for one row of `geoBoundary`:
window the dataset to the polygon's bounds, append the statistics row,
and when the window's variable slice is non-empty, clip / average /
stack and assemble the result into `out_ts` (adding the `timestep`
column first when `len(out_ts) == 0`).  The state is
(out_ts, stats, trace). -/
def loopStep (g : Grid) (var : String)
    (st : DF × List RegionStats × List Ev) (reg : Region) :
    Except String (DF × List RegionStats × List Ev) :=
  let window := selectBBox g reg.xmin reg.ymin reg.xmax reg.ymax
  let stats := st.2.1 ++ [mkStats reg window]
  if 0 < varSize window then
    let series := aggSeries window var reg.inside
    (if dfLen st.1 = 0 then
        (dfSetCol st.1 "timestep" (series.map (fun p => some p.1))).map
          (fun df => (df,
            st.2.2 ++ [Ev.computeRegion reg.name,
                       Ev.establishAxis reg.name series.length]))
      else .ok (st.1, st.2.2 ++ [Ev.computeRegion reg.name])).bind
      (fun d =>
        (dfSetCol d.1 reg.name (series.map Prod.snd)).map
          (fun df2 => (df2, stats, d.2)))
  else .ok (st.1, stats, st.2.2 ++ [Ev.computeRegion reg.name])

/-- The whole region loop, source lines 104-148: fold `loopStep` over
the rows of the boundary GeoDataFrame. -/
def runLoop (g : Grid) (var : String) (regions : List Region)
    (st : DF × List RegionStats × List Ev) :
    Except String (DF × List RegionStats × List Ev) :=
  regions.foldlM (loopStep g var) st

/-- Source lines 91-95: pick the administrative-level record from the
service response `r`.  When the response has more than two records the
requested level indexes it; otherwise level 0 is used and a warning is
logged (`true` in the result).  `none` models the `IndexError` Python
raises when the index does not exist. -/
def selectAdm {α : Type} (r : List α) (adm_level : ℕ) :
    Option (α × Bool) :=
  if 2 < r.length then r[adm_level]?.map (fun a => (a, false))
  else r[0]?.map (fun a => (a, true))

/-- Everything outside the script that a run consumes: which paths
exist (`os.path.exists`), the dataset behind the input file, the
pycountry alpha-3 code list, whether the geoboundaries request
succeeds, and the service response — one list of `Region`s (the
features `gpd.read_file` yields from its GeoJSON) per administrative
record. -/
structure World where
  files : List String
  grid : Grid
  countries : List String
  requestOk : Bool
  response : List (List Region)

def missingMsg (f : String) : String :=
  "Missing input file (" ++ f ++ ")"

def varMsg (v : String) : String :=
  "Variable " ++ v ++ " is not a data variable in the target GRIB file"

def countryMsg (c : String) : String :=
  "country " ++ c ++ " ISO3 code not existing"

def admMsg : String := "Adm_level must be a value between 0 and 2"

/-- The message logged (only logged, not raised) by the bare `except`
around the `requests.get` call, source line 83. -/
def requestLogMsg : String := "Error when requesting the shapefile"

/-- `extract_time_series` (source lines 36-153), as a function of the
outside `World` and of its arguments, returning the trace of observable
actions together with either the written output (time-series table and
statistics table, written only at lines 152-153 after the loop) or the
exception that aborted the run.  `adm_level` is the already-converted
integer (the `int(...)` conversion at line 86 is the CLI's string
plumbing); the parquet-extension normalisation of `outputfile`
(lines 74-78) only renames the output path and is not modelled.  When
the request fails, `r` stays unbound, the handler only logs, and the
first later use `len(r)` (line 91) raises an untyped `NameError` —
note this happens after the `adm_level` range check at lines 86-89. -/
def extract_time_series (w : World) (inputfile varname : String)
    (adm_level : ℤ) (country : String) :
    List Ev × Except String (DF × List RegionStats) :=
  if inputfile ∈ w.files then
    let tr1 := [Ev.openDataset]
    if varname ∈ w.grid.dataVars then
      let country := strUpper country
      if country ∈ w.countries then
        let tr2 := tr1 ++ [Ev.request country] ++
          (if w.requestOk then [] else [Ev.logRequestError])
        if adm_level < 0 ∨ 2 < adm_level then (tr2, .error admMsg)
        else if w.requestOk then
          match selectAdm w.response adm_level.toNat with
          | some geo =>
            let tr3 := tr2 ++
              (if geo.2 then [Ev.warnAdmFallback] else []) ++
              [Ev.readGeometry]
            match runLoop w.grid varname geo.1 ([], [], tr3) with
            | .ok out =>
              (out.2.2 ++ [Ev.writeTimeSeries, Ev.writeStats],
               .ok (out.1, out.2.1))
            | .error e => (tr3, .error e)
          | none => (tr2, .error "IndexError: list index out of range")
        else (tr2, .error "NameError: name r is not defined")
      else (tr1, .error (countryMsg country))
    else (tr1, .error (varMsg varname))
  else ([], .error (missingMsg inputfile))

/-! ## Example data used by the concrete witnesses -/

/-- A small ERA5-like grid: ascending longitude, descending latitude,
two base times and two steps, one variable `t2m` whose cell value is
`time + step + latitude + longitude`. -/
def exGrid : Grid :=
  { longitude := [0, 1], latitude := [1, 0], time := [0, 10], step := [1, 2],
    dataVars := ["t2m"], value := fun _ t s la lo => t + s + la + lo }

/-- A grid whose latitude axis is stored in ascending order. -/
def ascGrid : Grid :=
  { longitude := [0], latitude := [0, 1], time := [0], step := [0],
    dataVars := ["t2m"], value := fun _ _ _ _ _ => 300 }

/-- A region whose polygon covers the whole extent of `exGrid` (and of
`ascGrid`). -/
def coverReg : Region :=
  { name := "cover", iso := "CV", xmin := 0, ymin := 0, xmax := 1, ymax := 1,
    area_km2 := 5, inside := fun _ _ => true }

/-- A region whose bounding box is far away from both example grids. -/
def farReg : Region :=
  { name := "far", iso := "FR", xmin := 50, ymin := 50, xmax := 60, ymax := 60,
    area_km2 := 3, inside := fun _ _ => true }

/-- An example outside world: the input file exists, the pycountry list
contains ITA, the service request succeeds and returns one record whose
geometry holds `farReg` and `coverReg`. -/
def exWorld : World :=
  { files := ["in.grib"], grid := exGrid, countries := ["ITA"],
    requestOk := true, response := [[farReg, coverReg]] }

/-- `exWorld` with a failing boundary-service request. -/
def exWorldNoNet : World :=
  { exWorld with requestOk := false }

/-- The state produced by the region loop on `exGrid` over
`[farReg, coverReg]`: `farReg` contributes a statistics row only,
`coverReg` establishes the timestep axis and adds its column (cell
values average to `time + step + 1`). -/
def exOut : DF × List RegionStats × List Ev :=
  ([("timestep", [some 1, some 2, some 11, some 12]),
    ("cover", [some 2, some 3, some 12, some 13])],
   [{ name := "far", iso := "FR", area_km2 := 3, n := 0 },
    { name := "cover", iso := "CV", area_km2 := 5, n := 4 }],
   [Ev.computeRegion "far", Ev.computeRegion "cover",
    Ev.establishAxis "cover" 4])

/-! ## Bounding-box selection (claim C8) -/

theorem sliceSel_of_monoIncr {axis : List ℚ} (h : monoIncr axis = true)
    (a b : ℚ) :
    sliceSel axis a b =
      axis.filter (fun x => decide (a ≤ x) && decide (x ≤ b)) := by
  simp [sliceSel, h]

theorem sliceSel_of_monoDecr {axis : List ℚ} (h1 : monoIncr axis = false)
    (h2 : monoDecr axis = true) (a b : ℚ) :
    sliceSel axis a b =
      axis.filter (fun x => decide (b ≤ x) && decide (x ≤ a)) := by
  simp [sliceSel, h1, h2]

/-- Whatever the monotonicity of the axis, the slice selection is empty
when every axis label lies strictly on one side of both slice ends. -/
theorem sliceSel_eq_nil {axis : List ℚ} {a b : ℚ}
    (h : ∀ x ∈ axis, (x < a ∧ x < b) ∨ (a < x ∧ b < x)) :
    sliceSel axis a b = [] := by
  have hfilter : ∀ c d : ℚ, (∀ x ∈ axis, ¬ (c ≤ x ∧ x ≤ d)) →
      axis.filter (fun x => decide (c ≤ x) && decide (x ≤ d)) = [] := by
    intro c d hcd
    rw [List.filter_eq_nil_iff]
    intro x hx
    simpa using hcd x hx
  unfold sliceSel
  split
  · exact hfilter a b (fun x hx => by
      rcases h x hx with ⟨h1, _⟩ | ⟨_, h2⟩
      · exact fun hc => absurd hc.1 (not_le.mpr h1)
      · exact fun hc => absurd hc.2 (not_le.mpr h2))
  split
  · exact hfilter b a (fun x hx => by
      rcases h x hx with ⟨_, h1⟩ | ⟨h2, _⟩
      · exact fun hc => absurd hc.1 (not_le.mpr h1)
      · exact fun hc => absurd hc.2 (not_le.mpr h2))
  · exact hfilter a b (fun x hx => by
      rcases h x hx with ⟨h1, _⟩ | ⟨_, h2⟩
      · exact fun hc => absurd hc.1 (not_le.mpr h1)
      · exact fun hc => absurd hc.2 (not_le.mpr h2))

/-- C8, counterexample.  The claim promises the bounding-box selection
intersects the latitude axis with `[ymin, ymax]` whether the axis is
stored ascending or descending.  On `ascGrid` (latitude stored
ascending as `[0, 1]`) with bounding box `(0, 0, 1, 1)`, where every
latitude label lies inside `[0, 1]`, the selection returns the empty
latitude axis, because the source always slices latitude from `ymax`
down to `ymin`. -/
theorem C8_counterexample :
    (selectBBox ascGrid 0 0 1 1).latitude = [] ∧
    ascGrid.latitude.filter
      (fun y => decide ((0 : ℚ) ≤ y) && decide (y ≤ 1)) =
      ascGrid.latitude ∧
    ascGrid.latitude ≠ [] := by
  refine ⟨by decide, by decide, by decide⟩

/-- C8, amended.  `selectBBox` returns the sub-grid whose longitude
axis intersects `[xmin, xmax]` and whose latitude axis intersects
`[ymin, ymax]` provided the longitude axis is stored in non-decreasing
order and the latitude axis in non-increasing order with at least one
strict decrease (the ERA5 layout the script is written for); the
latitude slice is written `slice(ymax, ymin)`, so an ascending latitude
axis yields an empty latitude selection instead.  Time and step axes
are untouched. -/
theorem C8_selectBBox_amended (g : Grid) (xmin ymin xmax ymax : ℚ)
    (hlon : monoIncr g.longitude = true)
    (hlat1 : monoIncr g.latitude = false)
    (hlat2 : monoDecr g.latitude = true) :
    (selectBBox g xmin ymin xmax ymax).longitude =
      g.longitude.filter (fun x => decide (xmin ≤ x) && decide (x ≤ xmax)) ∧
    (selectBBox g xmin ymin xmax ymax).latitude =
      g.latitude.filter (fun y => decide (ymin ≤ y) && decide (y ≤ ymax)) ∧
    (selectBBox g xmin ymin xmax ymax).time = g.time ∧
    (selectBBox g xmin ymin xmax ymax).step = g.step := by
  refine ⟨?_, ?_, rfl, rfl⟩
  · simpa [selectBBox] using sliceSel_of_monoIncr hlon xmin xmax
  · simpa [selectBBox] using sliceSel_of_monoDecr hlat1 hlat2 ymax ymin

/-- C8, witness for the amended theorem at `exGrid` and the box
`(0, 0, 1, 1)`. -/
theorem C8_selectBBox_amended_witness :
    (selectBBox exGrid 0 0 1 1).longitude =
      exGrid.longitude.filter
        (fun x => decide ((0 : ℚ) ≤ x) && decide (x ≤ 1)) ∧
    (selectBBox exGrid 0 0 1 1).latitude =
      exGrid.latitude.filter
        (fun y => decide ((0 : ℚ) ≤ y) && decide (y ≤ 1)) ∧
    (selectBBox exGrid 0 0 1 1).time = exGrid.time ∧
    (selectBBox exGrid 0 0 1 1).step = exGrid.step :=
  C8_selectBBox_amended exGrid 0 0 1 1 (by decide) (by decide) (by decide)

/-! ## Empty coverage (claim C2) -/

/-- When the region's bounding box misses the grid, the bounding-box
window has an empty longitude or latitude axis. -/
theorem selectBBox_axis_nil (g : Grid) (reg : Region)
    (hx : reg.xmin ≤ reg.xmax) (hy : reg.ymin ≤ reg.ymax)
    (hdisj : (∀ x ∈ g.longitude, x < reg.xmin ∨ reg.xmax < x) ∨
             (∀ y ∈ g.latitude, y < reg.ymin ∨ reg.ymax < y)) :
    (selectBBox g reg.xmin reg.ymin reg.xmax reg.ymax).longitude = [] ∨
    (selectBBox g reg.xmin reg.ymin reg.xmax reg.ymax).latitude = [] := by
  rcases hdisj with hlon | hlat
  · left
    show sliceSel g.longitude reg.xmin reg.xmax = []
    refine sliceSel_eq_nil (fun x hx2 => ?_)
    rcases hlon x hx2 with h1 | h2
    · exact Or.inl ⟨h1, lt_of_lt_of_le h1 hx⟩
    · exact Or.inr ⟨lt_of_le_of_lt hx h2, h2⟩
  · right
    show sliceSel g.latitude reg.ymax reg.ymin = []
    refine sliceSel_eq_nil (fun y hy2 => ?_)
    rcases hlat y hy2 with h1 | h2
    · exact Or.inl ⟨lt_of_lt_of_le h1 hy, h1⟩
    · exact Or.inr ⟨h2, lt_of_le_of_lt hy h2⟩

/-- C2.  For every Grid and every Region whose bounding box does not
intersect the Grid's longitude/latitude extents (every longitude label
misses `[xmin, xmax]` or every latitude label misses `[ymin, ymax]`),
`aggregate` returns the empty series, the statistics row has
`cell_count = 0`, and the loop body adds no time-series column — it
only appends that statistics row (and the trace event). -/
theorem C2_empty_bbox_stats_row (g : Grid) (var : String) (reg : Region)
    (hx : reg.xmin ≤ reg.xmax) (hy : reg.ymin ≤ reg.ymax)
    (hdisj : (∀ x ∈ g.longitude, x < reg.xmin ∨ reg.xmax < x) ∨
             (∀ y ∈ g.latitude, y < reg.ymin ∨ reg.ymax < y)) :
    (aggregate g var reg).1 = [] ∧
    (aggregate g var reg).2.n = 0 ∧
    ∀ st : DF × List RegionStats × List Ev,
      loopStep g var st reg =
        .ok (st.1, st.2.1 ++ [(aggregate g var reg).2],
             st.2.2 ++ [Ev.computeRegion reg.name]) := by
  have hnil := selectBBox_axis_nil g reg hx hy hdisj
  have hn : (selectBBox g reg.xmin reg.ymin reg.xmax reg.ymax).latitude.length *
      (selectBBox g reg.xmin reg.ymin reg.xmax reg.ymax).longitude.length = 0 := by
    rcases hnil with h | h <;> simp [h]
  have hsize : ¬ 0 < varSize (selectBBox g reg.xmin reg.ymin reg.xmax reg.ymax) := by
    rcases hnil with h | h <;> simp [varSize, h]
  refine ⟨?_, ?_, ?_⟩
  · simp [aggregate, hsize]
  · simp [aggregate, mkStats, hn]
  · intro st
    simp [loopStep, aggregate, hsize]

/-- C2, witness: `farReg`'s box `(50, 50, 60, 60)` misses `exGrid`
entirely. -/
theorem C2_empty_bbox_stats_row_witness :
    (aggregate exGrid "t2m" farReg).1 = [] ∧
    (aggregate exGrid "t2m" farReg).2.n = 0 ∧
    ∀ st : DF × List RegionStats × List Ev,
      loopStep exGrid "t2m" st farReg =
        .ok (st.1, st.2.1 ++ [(aggregate exGrid "t2m" farReg).2],
             st.2.2 ++ [Ev.computeRegion farReg.name]) :=
  C2_empty_bbox_stats_row exGrid "t2m" farReg (by decide) (by decide)
    (Or.inl (by decide))

/-! ## Administrative-level fallback (claim C3) -/

/-- C3, counterexample.  The claim says that whenever the service
response contains two or fewer records the resolution selects the
record at index 0 instead of failing; a response with zero records has
no index 0, and the selection fails (`IndexError` in the source, `none`
here). -/
theorem C3_counterexample :
    ([] : List (List Region)).length ≤ 2 ∧
    selectAdm ([] : List (List Region)) 1 = none := by
  exact ⟨by decide, rfl⟩

/-- C3, amended.  For every validated admLevel in `[0, 2]`: when the
response contains strictly more than 2 records, resolution selects the
record at index admLevel (without warning); when it contains one or two
records, it selects the record at index 0 with a warning; when it
contains no record at all, the index-0 lookup fails. -/
theorem C3_selectAdm_amended {α : Type} (r : List α) (adm_level : ℕ)
    (hadm : adm_level ≤ 2) :
    (2 < r.length → ∃ rec, r[adm_level]? = some rec ∧
        selectAdm r adm_level = some (rec, false)) ∧
    (r.length ≤ 2 → ∀ rec0 ∈ r.head?,
        selectAdm r adm_level = some (rec0, true)) ∧
    (r = [] → selectAdm r adm_level = none) := by
  refine ⟨fun hlen => ?_, fun hlen rec0 h0 => ?_, fun hnil => ?_⟩
  · have hlt : adm_level < r.length := lt_of_le_of_lt hadm hlen
    refine ⟨r[adm_level], by simp [List.getElem?_eq_getElem hlt], ?_⟩
    simp [selectAdm, hlen, List.getElem?_eq_getElem hlt]
  · have hne : r ≠ [] := by
      intro h
      simp [h] at h0
    have hlen0 : 0 < r.length := List.length_pos.mpr hne
    have hnot : ¬ 2 < r.length := not_lt.mpr hlen
    have h0' : r[0]? = some rec0 := by
      cases r with
      | nil => simp at h0
      | cons a t => simpa using h0
    simp [selectAdm, hnot, h0']
  · simp [selectAdm, hnil]

/-- C3, witness for the amended theorem: a three-record response is
indexed at the requested level 1; a one-record response falls back to
its only record with a warning; the empty response fails. -/
theorem C3_selectAdm_amended_witness :
    (2 < [10, 20, 30].length → ∃ rec, [10, 20, 30][1]? = some rec ∧
        selectAdm [10, 20, 30] 1 = some (rec, false)) ∧
    ([10, 20, 30].length ≤ 2 → ∀ rec0 ∈ [10, 20, 30].head?,
        selectAdm [10, 20, 30] 1 = some (rec0, true)) ∧
    ([10, 20, 30] = ([] : List ℕ) → selectAdm [10, 20, 30] 1 = none) :=
  C3_selectAdm_amended [10, 20, 30] 1 (by decide)

/-! ## Full-coverage aggregation (claim C1) -/

/-- A bounding box enclosing every grid coordinate selects the whole
grid, provided the axes are laid out the way the script assumes
(longitude non-decreasing, latitude non-increasing with a strict
decrease). -/
theorem selectBBox_full (g : Grid) (reg : Region)
    (hlon : monoIncr g.longitude = true)
    (hlat1 : monoIncr g.latitude = false)
    (hlat2 : monoDecr g.latitude = true)
    (hcovx : ∀ x ∈ g.longitude, reg.xmin ≤ x ∧ x ≤ reg.xmax)
    (hcovy : ∀ y ∈ g.latitude, reg.ymin ≤ y ∧ y ≤ reg.ymax) :
    selectBBox g reg.xmin reg.ymin reg.xmax reg.ymax = g := by
  have h1 : sliceSel g.longitude reg.xmin reg.xmax = g.longitude := by
    rw [sliceSel_of_monoIncr hlon]
    refine List.filter_eq_self.mpr (fun x hx => ?_)
    simpa using hcovx x hx
  have h2 : sliceSel g.latitude reg.ymax reg.ymin = g.latitude := by
    rw [sliceSel_of_monoDecr hlat1 hlat2]
    refine List.filter_eq_self.mpr (fun y hy => ?_)
    simpa using hcovy y hy
  cases g
  simp_all [selectBBox]

theorem list_length_product {α β : Type} (l₁ : List α) (l₂ : List β) :
    (l₁.product l₂).length = l₁.length * l₂.length :=
  List.length_product l₁ l₂

/-- When the polygon contains every grid cell, the clipped NaN-skipping
mean is the plain mean of all cells. -/
theorem spatialMean_full (g : Grid) (var : String) (inside : ℚ → ℚ → Bool)
    (hin : ∀ x ∈ g.longitude, ∀ y ∈ g.latitude, inside x y = true)
    (hlat : g.latitude ≠ []) (hlon : g.longitude ≠ []) (t s : ℚ) :
    spatialMean g var inside t s = some (gridMean g var t s) := by
  have hfull : (g.latitude.product g.longitude).filter
      (fun p => inside p.2 p.1) = g.latitude.product g.longitude := by
    refine List.filter_eq_self.mpr (fun p hp => ?_)
    rcases List.mem_product.mp hp with ⟨h1, h2⟩
    exact hin p.2 h2 p.1 h1
  have hne : (g.latitude.product g.longitude).length ≠ 0 := by
    rw [list_length_product]
    exact Nat.mul_ne_zero (by simpa using hlat) (by simpa using hlon)
  simp [spatialMean, gridMean, hfull, hne]

/-- C1, counterexample.  `coverReg`'s polygon covers the whole extent
of `ascGrid`, which has one (time, step) pair, yet `aggregate` returns
a series with zero points rather than one: `ascGrid` stores its
latitude axis in ascending order and the source's
`latitude = slice(ymax, ymin)` then selects nothing. -/
theorem C1_counterexample :
    (∀ x ∈ ascGrid.longitude, coverReg.xmin ≤ x ∧ x ≤ coverReg.xmax) ∧
    (∀ y ∈ ascGrid.latitude, coverReg.ymin ≤ y ∧ y ≤ coverReg.ymax) ∧
    (∀ x ∈ ascGrid.longitude, ∀ y ∈ ascGrid.latitude,
        coverReg.inside x y = true) ∧
    ascGrid.time.length * ascGrid.step.length = 1 ∧
    (aggregate ascGrid "t2m" coverReg).1 = [] := by
  refine ⟨by decide, by decide, by decide, by decide, by decide⟩

/-- C1, amended.  For a Grid whose axes are laid out the way the
script assumes (longitude non-decreasing and non-empty, latitude
non-increasing with a strict decrease — the claim fails for an
ascending latitude axis, see the counterexample) and a Region whose
polygon covers the whole grid extent, the aggregated series is exactly
the list of `(time + step, spatial mean of all cells)` pairs in the
grid's native time/step ordering; with distinct time values and
distinct step values its length is the number N of distinct
(time, step) pairs. -/
theorem C1_full_cover_amended (g : Grid) (var : String) (reg : Region)
    (hlon : monoIncr g.longitude = true)
    (hlat1 : monoIncr g.latitude = false)
    (hlat2 : monoDecr g.latitude = true)
    (hlonne : g.longitude ≠ [])
    (htd : g.time.Nodup) (hsd : g.step.Nodup)
    (hcovx : ∀ x ∈ g.longitude, reg.xmin ≤ x ∧ x ≤ reg.xmax)
    (hcovy : ∀ y ∈ g.latitude, reg.ymin ≤ y ∧ y ≤ reg.ymax)
    (hin : ∀ x ∈ g.longitude, ∀ y ∈ g.latitude, reg.inside x y = true) :
    (aggregate g var reg).1 =
      (g.time.product g.step).map
        (fun p => (p.1 + p.2, some (gridMean g var p.1 p.2))) ∧
    (aggregate g var reg).1.length = g.time.length * g.step.length ∧
    (g.time.product g.step).Nodup := by
  have hlatne : g.latitude ≠ [] := by
    intro h
    rw [h] at hlat1
    exact absurd hlat1 (by decide)
  have hwin := selectBBox_full g reg hlon hlat1 hlat2 hcovx hcovy
  have hser : (aggregate g var reg).1 =
      (g.time.product g.step).map
        (fun p => (p.1 + p.2, some (gridMean g var p.1 p.2))) := by
    rw [aggregate, hwin]
    by_cases hsize : 0 < varSize g
    · have hmap : ∀ p : ℚ × ℚ, p ∈ g.time.product g.step →
          (p.1 + p.2, spatialMean g var reg.inside p.1 p.2) =
          (p.1 + p.2, some (gridMean g var p.1 p.2)) := by
        intro p _
        rw [spatialMean_full g var reg.inside hin hlatne hlonne]
      simpa [aggSeries, hsize] using List.map_congr_left hmap
    · have hts : g.time.length * g.step.length = 0 := by
        rcases Nat.eq_zero_of_not_pos hsize with h0
        have hl : g.latitude.length ≠ 0 := by simpa using hlatne
        have hl2 : g.longitude.length ≠ 0 := by simpa using hlonne
        rcases Nat.mul_eq_zero.mp h0 with h | h
        · rcases Nat.mul_eq_zero.mp h with h' | h'
          · exact h'
          · exact absurd h' hl
        · exact absurd h hl2
      have : (g.time.product g.step).length = 0 := by
        rw [list_length_product]
        exact hts
      have hnil : g.time.product g.step = [] := List.length_eq_zero.mp this
      simp [hsize, hnil]
  refine ⟨hser, ?_, List.Nodup.product htd hsd⟩
  rw [hser, List.length_map, list_length_product]

/-- C1, witness for the amended theorem: `exGrid` with `coverReg`.
Every cell of `exGrid` is `time + step + latitude + longitude`, so the
spatial mean at each of the four (time, step) pairs is
`time + step + 1`. -/
theorem C1_full_cover_amended_witness :
    (aggregate exGrid "t2m" coverReg).1 =
      (exGrid.time.product exGrid.step).map
        (fun p => (p.1 + p.2, some (gridMean exGrid "t2m" p.1 p.2))) ∧
    (aggregate exGrid "t2m" coverReg).1.length =
      exGrid.time.length * exGrid.step.length ∧
    (exGrid.time.product exGrid.step).Nodup :=
  C1_full_cover_amended exGrid "t2m" coverReg (by decide) (by decide)
    (by decide) (by decide) (by decide) (by decide) (by decide) (by decide)
    (by decide)

/-! ## Table assembly invariants (claims C4, C5) -/

/-- `dfSetCol` on a frame that already has columns: the assigned values
match the row count, the row count and head column name are preserved,
and the result is non-empty. -/
theorem dfSetCol_ok_spec {c : String × List (Option ℚ)} {cs : DF}
    {name : String} {vals : List (Option ℚ)} {df2 : DF}
    (h : dfSetCol (c :: cs) name vals = .ok df2) :
    vals.length = dfLen (c :: cs) ∧ dfLen df2 = dfLen (c :: cs) ∧
    df2.head?.map Prod.fst = some c.1 ∧ df2 ≠ [] := by
  rw [dfSetCol] at h
  split at h
  case isTrue hlen =>
    rw [Except.ok.injEq] at h
    subst h
    refine ⟨hlen, ?_, ?_, ?_⟩
    · split
      · simp [dfLen]
        split <;> simp [dfLen, hlen]
      · simp [dfLen]
    · split
      · simp
        split <;> simp
      · simp
    · split <;> simp
  case isFalse => exact absurd h (by simp)

/-- `dfSetCol` preserves the every-column-has-the-row-count invariant. -/
theorem dfSetCol_inv {df : DF} {name : String} {vals : List (Option ℚ)}
    {df2 : DF} (h : dfSetCol df name vals = .ok df2)
    (hinv : ∀ c ∈ df, c.2.length = dfLen df) :
    ∀ c ∈ df2, c.2.length = dfLen df2 := by
  match df with
  | [] =>
    rw [dfSetCol, Except.ok.injEq] at h
    subst h
    simp [dfLen]
  | c :: cs =>
    obtain ⟨hlen, hdfl, _, _⟩ := dfSetCol_ok_spec h
    rw [hdfl]
    rw [dfSetCol, if_pos hlen, Except.ok.injEq] at h
    subst h
    split
    · intro d hd
      rw [List.mem_map] at hd
      obtain ⟨d0, hd0, hfd⟩ := hd
      by_cases hn : d0.1 = name
      · simp [hn] at hfd
        rw [← hfd]
        exact hlen
      · simp [hn] at hfd
        rw [← hfd]
        exact hinv d0 hd0
    · intro d hd
      rw [List.mem_append] at hd
      rcases hd with hd | hd
      · exact hinv d hd
      · simp at hd
        rw [hd]
        exact hlen

theorem loopStep_empty (g : Grid) (var : String)
    (st : DF × List RegionStats × List Ev) (reg : Region)
    (hsize : varSize (selectBBox g reg.xmin reg.ymin reg.xmax reg.ymax) = 0) :
    loopStep g var st reg =
      .ok (st.1,
        st.2.1 ++ [mkStats reg (selectBBox g reg.xmin reg.ymin reg.xmax reg.ymax)],
        st.2.2 ++ [Ev.computeRegion reg.name]) := by
  simp [loopStep, hsize]

theorem loopStep_preserve {g : Grid} {var : String}
    {st st2 : DF × List RegionStats × List Ev} {reg : Region}
    (hne : dfLen st.1 ≠ 0) (h : loopStep g var st reg = .ok st2) :
    dfLen st2.1 = dfLen st.1 ∧
    st2.1.head?.map Prod.fst = st.1.head?.map Prod.fst ∧
    st2.2.2 = st.2.2 ++ [Ev.computeRegion reg.name] ∧
    ((∀ c ∈ st.1, c.2.length = dfLen st.1) →
      ∀ c ∈ st2.1, c.2.length = dfLen st2.1) := by
  simp only [loopStep, if_neg hne] at h
  split at h
  case isTrue hsz =>
    simp only [Except.bind] at h
    cases hdf : dfSetCol st.1 reg.name
        ((aggSeries (selectBBox g reg.xmin reg.ymin reg.xmax reg.ymax) var
          reg.inside).map Prod.snd) with
    | error e =>
      rw [hdf] at h
      simp [Except.map] at h
    | ok df2 =>
      rw [hdf] at h
      simp only [Except.map, Except.ok.injEq] at h
      subst h
      match hst : st.1 with
      | [] => exact absurd (by rw [hst]; rfl) hne
      | c :: cs =>
        rw [hst] at hdf
        obtain ⟨hlen, hdfl, hhead, _⟩ := dfSetCol_ok_spec hdf
        refine ⟨by simpa [hst] using hdfl, by simpa [hst] using hhead, rfl, ?_⟩
        intro hinv
        have := dfSetCol_inv hdf (by simpa [hst] using hinv)
        simpa using this
  case isFalse =>
    rw [Except.ok.injEq] at h
    subst h
    exact ⟨rfl, rfl, rfl, fun hinv => hinv⟩

theorem aggSeries_length (g : Grid) (var : String) (inside : ℚ → ℚ → Bool) :
    (aggSeries g var inside).length = g.time.length * g.step.length := by
  rw [aggSeries, List.length_map, list_length_product]

theorem loopStep_establish {g : Grid} {var : String} {reg : Region}
    (stats : List RegionStats) (tr : List Ev)
    (hsz : 0 < varSize (selectBBox g reg.xmin reg.ymin reg.xmax reg.ymax)) :
    ∃ df2 : DF,
      loopStep g var ([], stats, tr) reg =
        .ok (df2,
          stats ++ [mkStats reg (selectBBox g reg.xmin reg.ymin reg.xmax reg.ymax)],
          tr ++ [Ev.computeRegion reg.name,
                 Ev.establishAxis reg.name (g.time.length * g.step.length)]) ∧
      dfLen df2 = g.time.length * g.step.length ∧
      df2.head?.map Prod.fst = some "timestep" ∧
      (∀ c ∈ df2, c.2.length = dfLen df2) := by
  have hwts : (selectBBox g reg.xmin reg.ymin reg.xmax reg.ymax).time =
      g.time := rfl
  have hwss : (selectBBox g reg.xmin reg.ymin reg.xmax reg.ymax).step =
      g.step := rfl
  have hserlen : (aggSeries (selectBBox g reg.xmin reg.ymin reg.xmax reg.ymax)
      var reg.inside).length = g.time.length * g.step.length := by
    rw [aggSeries_length, hwts, hwss]
  by_cases hname : reg.name = "timestep"
  · refine ⟨[("timestep",
      (aggSeries (selectBBox g reg.xmin reg.ymin reg.xmax reg.ymax) var
        reg.inside).map Prod.snd)], ?_, ?_, rfl, ?_⟩
    · simp [loopStep, hsz, dfLen, dfSetCol, hname, hserlen, Except.bind, Except.map]
    · simp [dfLen, hserlen]
    · simp [dfLen]
  · refine ⟨[("timestep",
      (aggSeries (selectBBox g reg.xmin reg.ymin reg.xmax reg.ymax) var
        reg.inside).map (fun p => some p.1)),
      (reg.name,
      (aggSeries (selectBBox g reg.xmin reg.ymin reg.xmax reg.ymax) var
        reg.inside).map Prod.snd)], ?_, ?_, rfl, ?_⟩
    · simp [loopStep, hsz, dfLen, dfSetCol, hname, hserlen, Except.bind, Except.map]
    · simp [dfLen, hserlen]
    · simp [dfLen]

theorem runLoop_skip_empty {g : Grid} {var : String} (pre : List Region)
    (hpre : ∀ p ∈ pre, varSize (selectBBox g p.xmin p.ymin p.xmax p.ymax) = 0) :
    ∀ st : DF × List RegionStats × List Ev, ∃ stats2,
      runLoop g var pre st =
        .ok (st.1, stats2,
             st.2.2 ++ pre.map (fun p => Ev.computeRegion p.name)) := by
  induction pre with
  | nil =>
    intro st
    exact ⟨st.2.1, by simp [runLoop]; rfl⟩
  | cons p ps ih =>
    intro st
    have hp := loopStep_empty g var st p (hpre p (by simp))
    obtain ⟨stats2, hps⟩ := ih (fun q hq => hpre q (by simp [hq]))
      (st.1,
       st.2.1 ++ [mkStats p (selectBBox g p.xmin p.ymin p.xmax p.ymax)],
       st.2.2 ++ [Ev.computeRegion p.name])
    refine ⟨stats2, ?_⟩
    rw [runLoop, List.foldlM_cons, hp]
    simpa [runLoop, List.append_assoc] using hps

theorem runLoop_preserve {g : Grid} {var : String} (regs : List Region) :
    ∀ {st out : DF × List RegionStats × List Ev},
    dfLen st.1 ≠ 0 → runLoop g var regs st = .ok out →
    dfLen out.1 = dfLen st.1 ∧
    out.1.head?.map Prod.fst = st.1.head?.map Prod.fst ∧
    (∃ ext : List Ev, out.2.2 = st.2.2 ++ ext ∧
      ∀ e ∈ ext, isEstablishEv e = false) ∧
    ((∀ c ∈ st.1, c.2.length = dfLen st.1) →
      ∀ c ∈ out.1, c.2.length = dfLen out.1) := by
  induction regs with
  | nil =>
    intro st out hne h
    rw [runLoop, List.foldlM_nil] at h
    cases h
    exact ⟨rfl, rfl, ⟨[], by simp, by simp⟩, fun hv => hv⟩
  | cons r rs ih =>
    intro st out hne h
    rw [runLoop, List.foldlM_cons] at h
    cases hstep : loopStep g var st r with
    | error e =>
      rw [hstep] at h
      have hcontra : (Except.error e : Except String (DF × List RegionStats × List Ev)) = .ok out := h
      exact absurd hcontra (by simp)
    | ok st1 =>
      rw [hstep] at h
      obtain ⟨h1, h2, h3, h4⟩ := loopStep_preserve hne hstep
      have hne1 : dfLen st1.1 ≠ 0 := by rw [h1]; exact hne
      have hbind : runLoop g var rs st1 = .ok out := h
      obtain ⟨g1, g2, g3, g4⟩ := ih hne1 hbind
      obtain ⟨ext, hext, hestab⟩ := g3
      refine ⟨by rw [g1, h1], by rw [g2, h2], ?_, fun hv => g4 (h4 hv)⟩
      refine ⟨[Ev.computeRegion r.name] ++ ext, ?_, ?_⟩
      · rw [hext, h3, List.append_assoc]
      · intro e he
        rcases List.mem_append.mp he with he | he
        · simp at he
          rw [he]
          rfl
        · exact hestab e he

theorem varSize_pos_ts {G : Grid} (h : 0 < varSize G) :
    0 < G.time.length * G.step.length := by
  by_contra hc
  have h0 : G.time.length * G.step.length = 0 := Nat.eq_zero_of_not_pos hc
  rw [varSize, h0] at h
  simp at h

theorem loopStep_inv {g : Grid} {var : String}
    {st st2 : DF × List RegionStats × List Ev} {reg : Region}
    (h : loopStep g var st reg = .ok st2)
    (hinv1 : ∀ c ∈ st.1, c.2.length = dfLen st.1)
    (hinv2 : st.1 ≠ [] →
      st.1.head?.map Prod.fst = some "timestep" ∧ dfLen st.1 ≠ 0) :
    (∀ c ∈ st2.1, c.2.length = dfLen st2.1) ∧
    (st2.1 ≠ [] →
      st2.1.head?.map Prod.fst = some "timestep" ∧ dfLen st2.1 ≠ 0) := by
  by_cases hst : st.1 = []
  · by_cases hsz : 0 < varSize (selectBBox g reg.xmin reg.ymin reg.xmax reg.ymax)
    · obtain ⟨df2, hstep, hlen, hhead, hcols⟩ := loopStep_establish st.2.1 st.2.2 hsz
      have hst2 : st = ([], st.2.1, st.2.2) := by rw [← hst]
      rw [hst2, hstep] at h
      cases h
      have hts : 0 < g.time.length * g.step.length := by
        have := varSize_pos_ts hsz
        simpa [selectBBox] using this
      exact ⟨hcols, fun _ => ⟨hhead, by rw [hlen]; omega⟩⟩
    · rw [loopStep_empty g var st reg (Nat.eq_zero_of_not_pos hsz)] at h
      cases h
      exact ⟨hinv1, fun h2 => hinv2 (by simpa using h2)⟩
  · have hne : dfLen st.1 ≠ 0 := (hinv2 hst).2
    obtain ⟨h1, h2, _, h4⟩ := loopStep_preserve hne h
    refine ⟨h4 hinv1, fun _ => ⟨?_, ?_⟩⟩
    · rw [h2]
      exact (hinv2 hst).1
    · rw [h1]
      exact hne

theorem runLoop_inv {g : Grid} {var : String} (regs : List Region) :
    ∀ {st out : DF × List RegionStats × List Ev},
    runLoop g var regs st = .ok out →
    (∀ c ∈ st.1, c.2.length = dfLen st.1) →
    (st.1 ≠ [] →
      st.1.head?.map Prod.fst = some "timestep" ∧ dfLen st.1 ≠ 0) →
    (∀ c ∈ out.1, c.2.length = dfLen out.1) ∧
    (out.1 ≠ [] →
      out.1.head?.map Prod.fst = some "timestep" ∧ dfLen out.1 ≠ 0) := by
  induction regs with
  | nil =>
    intro st out h h1 h2
    rw [runLoop, List.foldlM_nil] at h
    cases h
    exact ⟨h1, h2⟩
  | cons r rs ih =>
    intro st out h h1 h2
    rw [runLoop, List.foldlM_cons] at h
    cases hstep : loopStep g var st r with
    | error e =>
      rw [hstep] at h
      have hcontra : (Except.error e :
          Except String (DF × List RegionStats × List Ev)) = .ok out := h
      exact absurd hcontra (by simp)
    | ok st1 =>
      rw [hstep] at h
      have hbind : runLoop g var rs st1 = .ok out := h
      obtain ⟨k1, k2⟩ := loopStep_inv hstep h1 h2
      exact ih hbind k1 k2

theorem runLoop_append (g : Grid) (var : String) (l l2 : List Region)
    (st : DF × List RegionStats × List Ev) :
    runLoop g var (l ++ l2) st =
      (runLoop g var l st).bind (fun st2 => runLoop g var l2 st2) := by
  rw [runLoop, List.foldlM_append]
  rfl

theorem runLoop_cons (g : Grid) (var : String) (r : Region)
    (rs : List Region) (st : DF × List RegionStats × List Ev) :
    runLoop g var (r :: rs) st =
      (loopStep g var st r).bind (fun st2 => runLoop g var rs st2) := by
  rw [runLoop, List.foldlM_cons]
  rfl

/-- C4 over runLoop. -/
theorem C4_columns_match_axis (g : Grid) (var : String) (regs : List Region)
    (out : DF × List RegionStats × List Ev)
    (h : runLoop g var regs ([], [], []) = .ok out)
    (hne : out.1 ≠ []) :
    out.1.head?.map Prod.fst = some "timestep" ∧
    ∀ c ∈ out.1, c.2.length = dfLen out.1 := by
  obtain ⟨k1, k2⟩ := runLoop_inv regs h (by simp) (by simp)
  exact ⟨(k2 hne).1, k1⟩

theorem C4_columns_match_axis_witness :
    exOut.1.head?.map Prod.fst = some "timestep" ∧
    ∀ c ∈ exOut.1, c.2.length = dfLen exOut.1 :=
  C4_columns_match_axis exGrid "t2m" [farReg, coverReg] exOut
    (by norm_num [runLoop, List.foldlM, loopStep, dfSetCol, dfLen, aggSeries,
      spatialMean, selectBBox, sliceSel, monoIncr, monoDecr, varSize, mkStats,
      exGrid, farReg, coverReg, exOut, List.product, Except.bind, Except.map,
      Except.instMonad, Bind.bind, Pure.pure, Except.pure, String.ext_iff] <;>
      decide)
    (by decide)

/-- C5 over runLoop. -/
theorem C5_axis_from_first_nonempty (g : Grid) (var : String)
    (pre : List Region) (r : Region) (post : List Region)
    (out : DF × List RegionStats × List Ev)
    (hpre : ∀ p ∈ pre, varSize (selectBBox g p.xmin p.ymin p.xmax p.ymax) = 0)
    (hr : 0 < varSize (selectBBox g r.xmin r.ymin r.xmax r.ymax))
    (h : runLoop g var (pre ++ r :: post) ([], [], []) = .ok out) :
    out.2.2.filter isEstablishEv =
      [Ev.establishAxis r.name (g.time.length * g.step.length)] ∧
    0 < g.time.length * g.step.length ∧
    (∀ nm n, Ev.establishAxis nm n ∈ out.2.2 → 0 < n) := by
  have hts : 0 < g.time.length * g.step.length := by
    have := varSize_pos_ts hr
    simpa [selectBBox] using this
  obtain ⟨stats2, hpre2⟩ := runLoop_skip_empty pre hpre ([], [], [])
  obtain ⟨df2, hstep, hlen, hhead, hcols⟩ := loopStep_establish stats2
    (([] : List Ev) ++ pre.map (fun p => Ev.computeRegion p.name)) hr
  rw [runLoop_append, hpre2] at h
  have h2 : runLoop g var (r :: post)
      ([], stats2, ([] : List Ev) ++ pre.map (fun p => Ev.computeRegion p.name)) =
      .ok out := h
  rw [runLoop_cons, hstep] at h2
  have h3 : runLoop g var post
      (df2,
       stats2 ++ [mkStats r (selectBBox g r.xmin r.ymin r.xmax r.ymax)],
       (([] : List Ev) ++ pre.map (fun p => Ev.computeRegion p.name)) ++
         [Ev.computeRegion r.name,
          Ev.establishAxis r.name (g.time.length * g.step.length)]) =
      .ok out := h2
  have hne : dfLen df2 ≠ 0 := by
    rw [hlen]
    omega
  obtain ⟨_, _, ⟨ext, hext, hestab⟩, _⟩ := runLoop_preserve post hne h3
  have hfilterpre : (pre.map (fun p => Ev.computeRegion p.name)).filter
      isEstablishEv = [] := by
    rw [List.filter_eq_nil_iff]
    intro e he
    obtain ⟨p, _, hp⟩ := List.mem_map.mp he
    rw [← hp]
    simp [isEstablishEv]
  have hfilterext : ext.filter isEstablishEv = [] := by
    rw [List.filter_eq_nil_iff]
    intro e he
    simp [hestab e he]
  have hfilter : out.2.2.filter isEstablishEv =
      [Ev.establishAxis r.name (g.time.length * g.step.length)] := by
    rw [hext]
    simp only [List.nil_append, List.filter_append, hfilterpre, hfilterext]
    simp [isEstablishEv]
  refine ⟨hfilter, hts, fun nm n hmem => ?_⟩
  have hmem2 : Ev.establishAxis nm n ∈ out.2.2.filter isEstablishEv :=
    List.mem_filter.mpr ⟨hmem, by simp [isEstablishEv]⟩
  rw [hfilter] at hmem2
  simp at hmem2
  omega

theorem C5_axis_from_first_nonempty_witness :
    exOut.2.2.filter isEstablishEv =
      [Ev.establishAxis coverReg.name
        (exGrid.time.length * exGrid.step.length)] ∧
    0 < exGrid.time.length * exGrid.step.length ∧
    (∀ nm n, Ev.establishAxis nm n ∈ exOut.2.2 → 0 < n) :=
  C5_axis_from_first_nonempty exGrid "t2m" [farReg] coverReg [] exOut
    (by decide) (by decide)
    (by norm_num [runLoop, List.foldlM, loopStep, dfSetCol, dfLen, aggSeries,
      spatialMean, selectBBox, sliceSel, monoIncr, monoDecr, varSize, mkStats,
      exGrid, farReg, coverReg, exOut, List.product, Except.bind, Except.map,
      Except.instMonad, Bind.bind, Pure.pure, Except.pure, String.ext_iff] <;>
      decide)

/-! ## Run orchestration (claims C6, C7, C9, C10) -/

theorem dfSetCol_error_msg {df : DF} {name : String}
    {vals : List (Option ℚ)} {e : String}
    (h : dfSetCol df name vals = .error e) :
    e = "ValueError: Length of values does not match length of index" := by
  match df with
  | [] => exact absurd h (by simp [dfSetCol])
  | c :: cs =>
    rw [dfSetCol] at h
    split at h
    · exact absurd h (by simp)
    · exact (Except.error.injEq _ _ |>.mp h).symm

theorem loopStep_error_msg {g : Grid} {var : String}
    {st : DF × List RegionStats × List Ev} {reg : Region} {e : String}
    (h : loopStep g var st reg = .error e) :
    e = "ValueError: Length of values does not match length of index" := by
  simp only [loopStep] at h
  split at h
  · split at h
    · cases hdf : dfSetCol st.1 "timestep"
          ((aggSeries (selectBBox g reg.xmin reg.ymin reg.xmax reg.ymax) var
            reg.inside).map (fun p => some p.1)) with
      | error e1 =>
        rw [hdf] at h
        have he : (Except.error e1 :
            Except String (DF × List RegionStats × List Ev)) = .error e := h
        rw [Except.error.injEq] at he
        rw [← he]
        exact dfSetCol_error_msg hdf
      | ok d1 =>
        rw [hdf] at h
        cases hdf2 : dfSetCol d1 reg.name
            ((aggSeries (selectBBox g reg.xmin reg.ymin reg.xmax reg.ymax) var
              reg.inside).map Prod.snd) with
        | error e2 =>
          have he : (Except.error e2 :
              Except String (DF × List RegionStats × List Ev)) = .error e := by
            simpa [Except.bind, Except.map, hdf2] using h
          rw [Except.error.injEq] at he
          rw [← he]
          exact dfSetCol_error_msg hdf2
        | ok d2 =>
          exact absurd h (by simp [Except.bind, Except.map, hdf2])
    · cases hdf2 : dfSetCol st.1 reg.name
          ((aggSeries (selectBBox g reg.xmin reg.ymin reg.xmax reg.ymax) var
            reg.inside).map Prod.snd) with
      | error e2 =>
        have he : (Except.error e2 :
            Except String (DF × List RegionStats × List Ev)) = .error e := by
          simpa [Except.bind, Except.map, hdf2] using h
        rw [Except.error.injEq] at he
        rw [← he]
        exact dfSetCol_error_msg hdf2
      | ok d2 =>
        exact absurd h (by simp [Except.bind, Except.map, hdf2])
  · exact absurd h (by simp)

theorem runLoop_error_msg {g : Grid} {var : String} (regs : List Region) :
    ∀ {st : DF × List RegionStats × List Ev} {e : String},
    runLoop g var regs st = .error e →
    e = "ValueError: Length of values does not match length of index" := by
  induction regs with
  | nil =>
    intro st e h
    exact absurd (h : (Except.ok st : Except String (DF × List RegionStats × List Ev)) = .error e)
      (fun hc => Except.noConfusion hc)
  | cons r rs ih =>
    intro st e h
    rw [runLoop, List.foldlM_cons] at h
    cases hstep : loopStep g var st r with
    | error e1 =>
      rw [hstep] at h
      have he : (Except.error e1 :
          Except String (DF × List RegionStats × List Ev)) = .error e := h
      rw [Except.error.injEq] at he
      rw [← he]
      exact loopStep_error_msg hstep
    | ok st1 =>
      rw [hstep] at h
      exact ih (h : runLoop g var rs st1 = .error e)

/-- The country-validation error message starts with the letter c; any
message starting differently is not a country-validation error. -/
theorem ne_countryMsg {m : String} (s : String)
    (hm : m.data.head? ≠ some 'c') : m ≠ countryMsg s := by
  intro h
  apply hm
  rw [h]
  rfl

/-- C6 over the run. -/
theorem C6_validation_aborts (w : World) (f v : String) (a : ℤ) (c : String)
    (h : f ∉ w.files ∨ v ∉ w.grid.dataVars ∨ strUpper c ∉ w.countries ∨
         a < 0 ∨ 2 < a) :
    ((extract_time_series w f v a c).2 = .error (missingMsg f) ∨
     (extract_time_series w f v a c).2 = .error (varMsg v) ∨
     (extract_time_series w f v a c).2 = .error (countryMsg (strUpper c)) ∨
     (extract_time_series w f v a c).2 = .error admMsg) ∧
    Ev.writeTimeSeries ∉ (extract_time_series w f v a c).1 ∧
    Ev.writeStats ∉ (extract_time_series w f v a c).1 := by
  by_cases h1 : f ∈ w.files
  · by_cases h2 : v ∈ w.grid.dataVars
    · by_cases h3 : strUpper c ∈ w.countries
      · have h4 : a < 0 ∨ 2 < a := by
          rcases h with h | h | h | h | h
          · exact absurd h1 h
          · exact absurd h2 h
          · exact absurd h3 h
          · exact Or.inl h
          · exact Or.inr h
        cases hreq : w.requestOk <;>
          simp [extract_time_series, h1, h2, h3, h4, hreq]
      · simp [extract_time_series, h1, h2, h3]
    · simp [extract_time_series, h1, h2]
  · simp [extract_time_series, h1]

/-- C7 over the run. -/
theorem C7_invalid_country_before_network (w : World) (f v : String)
    (a : ℤ) (c : String) (hf : f ∈ w.files) (hv : v ∈ w.grid.dataVars) :
    (strUpper c ∉ w.countries →
      (extract_time_series w f v a c).2 = .error (countryMsg (strUpper c)) ∧
      (∀ s, Ev.request s ∉ (extract_time_series w f v a c).1) ∧
      (∀ n, Ev.computeRegion n ∉ (extract_time_series w f v a c).1) ∧
      (∀ nm k, Ev.establishAxis nm k ∉ (extract_time_series w f v a c).1)) ∧
    (strUpper c ∈ w.countries → (a < 0 ∨ 2 < a) →
      (extract_time_series w f v a c).2 = .error admMsg) := by
  constructor
  · intro hc
    simp [extract_time_series, hf, hv, hc]
  · intro hc ha
    cases hreq : w.requestOk <;>
      simp [extract_time_series, hf, hv, hc, ha, hreq]

/-- C9 over the run. -/
theorem C9_request_failure_only_logged (w : World) (f v : String)
    (a : ℤ) (c : String) (hf : f ∈ w.files) (hv : v ∈ w.grid.dataVars)
    (hc : strUpper c ∈ w.countries) (hreq : w.requestOk = false) :
    Ev.request (strUpper c) ∈ (extract_time_series w f v a c).1 ∧
    Ev.logRequestError ∈ (extract_time_series w f v a c).1 ∧
    (extract_time_series w f v a c).2 ≠ .error requestLogMsg ∧
    ((a < 0 ∨ 2 < a) →
      (extract_time_series w f v a c).2 = .error admMsg) ∧
    (¬(a < 0 ∨ 2 < a) →
      (extract_time_series w f v a c).2 =
        .error "NameError: name r is not defined") := by
  by_cases ha : a < 0 ∨ 2 < a <;>
    simp [extract_time_series, hf, hv, hc, hreq, ha, requestLogMsg, admMsg,
      String.ext_iff]

theorem loopStep_trace_ext {g : Grid} {var : String}
    {st st2 : DF × List RegionStats × List Ev} {reg : Region}
    (h : loopStep g var st reg = .ok st2) :
    ∃ ext, st2.2.2 = st.2.2 ++ ext := by
  by_cases hsz : 0 < varSize (selectBBox g reg.xmin reg.ymin reg.xmax reg.ymax)
  · by_cases hst : st.1 = []
    · have hst2 : st = ([], st.2.1, st.2.2) := by rw [← hst]
      obtain ⟨df2, hstep, _, _, _⟩ := loopStep_establish st.2.1 st.2.2 hsz
      rw [hst2, hstep] at h
      cases h
      exact ⟨_, rfl⟩
    · by_cases hdfl : dfLen st.1 = 0
      · exfalso
        have hpos : 0 < (aggSeries
            (selectBBox g reg.xmin reg.ymin reg.xmax reg.ymax) var
            reg.inside).length := by
          rw [aggSeries_length]
          exact varSize_pos_ts hsz
        match hst1 : st.1 with
        | [] => exact hst hst1
        | c :: cs =>
          rw [hst1] at hdfl
          simp only [loopStep, if_pos hsz, if_pos hdfl, hst1] at h
          rw [dfSetCol] at h
          have hcond : ¬ ((aggSeries
              (selectBBox g reg.xmin reg.ymin reg.xmax reg.ymax) var
              reg.inside).map (fun p => some p.1)).length =
              dfLen (c :: cs) := by
            rw [List.length_map, hdfl]
            omega
          rw [if_neg hcond] at h
          exact Except.noConfusion (h :
            (Except.error "ValueError: Length of values does not match length of index" :
              Except String (DF × List RegionStats × List Ev)).bind _ = .ok st2)
      · obtain ⟨_, _, h3, _⟩ := loopStep_preserve hdfl h
        exact ⟨_, h3⟩
  · rw [loopStep_empty g var st reg (Nat.eq_zero_of_not_pos hsz)] at h
    cases h
    exact ⟨_, rfl⟩

theorem runLoop_trace_ext {g : Grid} {var : String} (regs : List Region) :
    ∀ {st out : DF × List RegionStats × List Ev},
    runLoop g var regs st = .ok out → ∃ ext, out.2.2 = st.2.2 ++ ext := by
  induction regs with
  | nil =>
    intro st out h
    cases (h : (Except.ok st :
        Except String (DF × List RegionStats × List Ev)) = .ok out)
    exact ⟨[], by simp⟩
  | cons r rs ih =>
    intro st out h
    rw [runLoop, List.foldlM_cons] at h
    cases hstep : loopStep g var st r with
    | error e =>
      rw [hstep] at h
      exact absurd (h : (Except.error e :
          Except String (DF × List RegionStats × List Ev)) = .ok out)
        (fun hc => Except.noConfusion hc)
    | ok st1 =>
      rw [hstep] at h
      obtain ⟨e1, he1⟩ := loopStep_trace_ext hstep
      obtain ⟨e2, he2⟩ := ih (h : runLoop g var rs st1 = .ok out)
      exact ⟨e1 ++ e2, by rw [he2, he1, List.append_assoc]⟩

theorem request_mem_extract (w : World) (f v : String) (a : ℤ) (c : String)
    (hf : f ∈ w.files) (hv : v ∈ w.grid.dataVars)
    (hc : strUpper c ∈ w.countries) :
    Ev.request (strUpper c) ∈ (extract_time_series w f v a c).1 := by
  simp only [extract_time_series, if_pos hf, if_pos hv, if_pos hc]
  split
  · simp
  · split
    · split
      · split
        · rename_i out heq
          obtain ⟨ext, hext⟩ := runLoop_trace_ext _ heq
          simp [hext]
        · simp
      · simp
    · simp

theorem extract_not_country_error (w : World) (f v : String) (a : ℤ)
    (c : String) (hf : f ∈ w.files) (hv : v ∈ w.grid.dataVars)
    (hc : strUpper c ∈ w.countries) :
    (extract_time_series w f v a c).2 ≠ .error (countryMsg (strUpper c)) := by
  simp only [extract_time_series, if_pos hf, if_pos hv, if_pos hc]
  split
  · exact fun hcon => ne_countryMsg (strUpper c) (by decide)
      ((Except.error.injEq _ _).mp hcon)
  · split
    · split
      · split
        · rename_i out heq
          exact fun hcon => Except.noConfusion hcon
        · rename_i e heq
          have he := runLoop_error_msg _ heq
          subst he
          exact fun hcon => ne_countryMsg (strUpper c) (by decide)
            ((Except.error.injEq _ _).mp hcon)
      · exact fun hcon => ne_countryMsg (strUpper c) (by decide)
          ((Except.error.injEq _ _).mp hcon)
    · exact fun hcon => ne_countryMsg (strUpper c) (by decide)
        ((Except.error.injEq _ _).mp hcon)

/-- C10 over the run. -/
theorem C10_country_case_insensitive (w : World) (f v : String)
    (a : ℤ) (c : String) (hf : f ∈ w.files) (hv : v ∈ w.grid.dataVars) :
    (strUpper c ∈ w.countries →
      Ev.request (strUpper c) ∈ (extract_time_series w f v a c).1 ∧
      (extract_time_series w f v a c).2 ≠
        .error (countryMsg (strUpper c))) ∧
    (strUpper c ∉ w.countries →
      (extract_time_series w f v a c).2 =
        .error (countryMsg (strUpper c))) := by
  constructor
  · intro hc
    exact ⟨request_mem_extract w f v a c hf hv hc,
           extract_not_country_error w f v a c hf hv hc⟩
  · intro hc
    simp [extract_time_series, hf, hv, hc]

theorem C6_validation_aborts_witness :
    ((extract_time_series exWorld "missing.grib" "t2m" 0 "ITA").2 =
        .error (missingMsg "missing.grib") ∨
     (extract_time_series exWorld "missing.grib" "t2m" 0 "ITA").2 =
        .error (varMsg "t2m") ∨
     (extract_time_series exWorld "missing.grib" "t2m" 0 "ITA").2 =
        .error (countryMsg (strUpper "ITA")) ∨
     (extract_time_series exWorld "missing.grib" "t2m" 0 "ITA").2 =
        .error admMsg) ∧
    Ev.writeTimeSeries ∉
      (extract_time_series exWorld "missing.grib" "t2m" 0 "ITA").1 ∧
    Ev.writeStats ∉
      (extract_time_series exWorld "missing.grib" "t2m" 0 "ITA").1 :=
  C6_validation_aborts exWorld "missing.grib" "t2m" 0 "ITA"
    (Or.inl (by decide))

theorem C7_invalid_country_before_network_witness :
    (strUpper "ZZZ" ∉ exWorld.countries →
      (extract_time_series exWorld "in.grib" "t2m" 5 "ZZZ").2 =
        .error (countryMsg (strUpper "ZZZ")) ∧
      (∀ s, Ev.request s ∉
        (extract_time_series exWorld "in.grib" "t2m" 5 "ZZZ").1) ∧
      (∀ n, Ev.computeRegion n ∉
        (extract_time_series exWorld "in.grib" "t2m" 5 "ZZZ").1) ∧
      (∀ nm k, Ev.establishAxis nm k ∉
        (extract_time_series exWorld "in.grib" "t2m" 5 "ZZZ").1)) ∧
    (strUpper "ZZZ" ∈ exWorld.countries → ((5 : ℤ) < 0 ∨ 2 < (5 : ℤ)) →
      (extract_time_series exWorld "in.grib" "t2m" 5 "ZZZ").2 =
        .error admMsg) :=
  C7_invalid_country_before_network exWorld "in.grib" "t2m" 5 "ZZZ"
    (by decide) (by decide)

theorem C9_request_failure_only_logged_witness :
    Ev.request (strUpper "ITA") ∈
      (extract_time_series exWorldNoNet "in.grib" "t2m" 0 "ITA").1 ∧
    Ev.logRequestError ∈
      (extract_time_series exWorldNoNet "in.grib" "t2m" 0 "ITA").1 ∧
    (extract_time_series exWorldNoNet "in.grib" "t2m" 0 "ITA").2 ≠
      .error requestLogMsg ∧
    (((0 : ℤ) < 0 ∨ 2 < (0 : ℤ)) →
      (extract_time_series exWorldNoNet "in.grib" "t2m" 0 "ITA").2 =
        .error admMsg) ∧
    (¬((0 : ℤ) < 0 ∨ 2 < (0 : ℤ)) →
      (extract_time_series exWorldNoNet "in.grib" "t2m" 0 "ITA").2 =
        .error "NameError: name r is not defined") :=
  C9_request_failure_only_logged exWorldNoNet "in.grib" "t2m" 0 "ITA"
    (by decide) (by decide) (by decide) (by decide)

theorem C10_country_case_insensitive_witness :
    (strUpper "ita" ∈ exWorld.countries →
      Ev.request (strUpper "ita") ∈
        (extract_time_series exWorld "in.grib" "t2m" 0 "ita").1 ∧
      (extract_time_series exWorld "in.grib" "t2m" 0 "ita").2 ≠
        .error (countryMsg (strUpper "ita"))) ∧
    (strUpper "ita" ∉ exWorld.countries →
      (extract_time_series exWorld "in.grib" "t2m" 0 "ita").2 =
        .error (countryMsg (strUpper "ita"))) :=
  C10_country_case_insensitive exWorld "in.grib" "t2m" 0 "ita"
    (by decide) (by decide)
